import Mathlib

/-!
Verification of the book resource of this repository: the `Form`/`Book`/`DTO`
data shapes (src/unnamed/part_000), the mapping functions `Form.ToModel`,
`Book.ToDto`, `Books.ToDto`, and the five HTTP handlers `API.List`,
`API.Create`, `API.Read`, `API.Update`, `API.Delete`
(src/api/resource/book/handler.go).

External collaborators are embedded as follows.

* Dates: the Go standard library calls `time.Parse("2006-01-02", s)` and
  `Time.Format("2006-01-02")` are embedded as `parseDate` and `formatDate`
  on a calendar-date record. The layout `2006-01-02` is the fixed
  `YYYY-MM-DD` wire format: a four-digit year, a two-digit month and a
  two-digit day separated by hyphens, with Go's month and day-of-month
  range validation (including leap years). The zero value of `time.Time`
  (January 1 of year 1) is `zeroDate`. Go additionally accepts a signed
  year in place of the four digits; such inputs are outside the spec's
  `YYYY-MM-DD` wire format and are not modelled (years are 0–9999 here).
* The JSON request decoder (`encoding/json`) is external; each handler
  takes the decode outcome (`Option Form`, `none` = decode error) as a
  parameter.  Likewise `uuid.Parse` on the path parameter is external and
  handlers take its outcome (`Option UUID`) as a parameter.
* The repository is external; each handler takes the outcome of the one
  repository call it makes as a function parameter, and returns the trace
  of repository calls it performed alongside the HTTP response.
-/

/-- A calendar date, the date part of a Go `time.Time`. -/
structure Date where
  year : Nat
  month : Nat
  day : Nat
deriving DecidableEq

/-- The zero value of Go's `time.Time`: January 1, year 1. -/
def zeroDate : Date := ⟨1, 1, 1⟩

/-- Value of a decimal digit character, `none` for any other character
(Go's byte-wise `'0' <= c && c <= '9'` check plus `c - '0'`). -/
def charDigit? (c : Char) : Option Nat :=
  if c = '0' then some 0
  else if c = '1' then some 1
  else if c = '2' then some 2
  else if c = '3' then some 3
  else if c = '4' then some 4
  else if c = '5' then some 5
  else if c = '6' then some 6
  else if c = '7' then some 7
  else if c = '8' then some 8
  else if c = '9' then some 9
  else none

/-- The decimal digit character for a value below ten. -/
def digitChar (n : Nat) : Char :=
  match n with
  | 0 => '0'
  | 1 => '1'
  | 2 => '2'
  | 3 => '3'
  | 4 => '4'
  | 5 => '5'
  | 6 => '6'
  | 7 => '7'
  | 8 => '8'
  | 9 => '9'
  | _ => '*'

/-- Go's `isLeap`: leap years in the proleptic Gregorian calendar. -/
def isLeap (y : Nat) : Bool :=
  y % 4 = 0 && (y % 100 != 0 || y % 400 = 0)

/-- Go's `daysIn`: the number of days of month `m` in year `y`. -/
def daysIn (y m : Nat) : Nat :=
  if m = 2 then (if isLeap y then 29 else 28)
  else if m = 4 ∨ m = 6 ∨ m = 9 ∨ m = 11 then 30
  else 31

/-- `time.Parse("2006-01-02", ·)` on the character list of the input:
exactly ten characters `YYYY-MM-DD`, with Go's month and day-of-month
range checks. -/
def parseDateChars (l : List Char) : Option Date :=
  match l with
  | [y1, y2, y3, y4, h1, m1, m2, h2, d1, d2] =>
    match charDigit? y1, charDigit? y2, charDigit? y3, charDigit? y4,
          charDigit? m1, charDigit? m2, charDigit? d1, charDigit? d2 with
    | some a, some b, some c, some d, some e, some f, some g, some h =>
      if h1 = '-' ∧ h2 = '-' then
        if 1 ≤ 10 * e + f ∧ 10 * e + f ≤ 12 ∧ 1 ≤ 10 * g + h ∧
            10 * g + h ≤ daysIn (1000 * a + 100 * b + 10 * c + d) (10 * e + f) then
          some ⟨1000 * a + 100 * b + 10 * c + d, 10 * e + f, 10 * g + h⟩
        else none
      else none
    | _, _, _, _, _, _, _, _ => none
  | _ => none

/-- `time.Parse("2006-01-02", s)`: `some` of the parsed date on success,
`none` where Go returns a parse error. -/
def parseDate (s : String) : Option Date :=
  parseDateChars s.data

/-- Two-digit zero-padded decimal rendering (layout items `01`, `02`). -/
def pad2 (n : Nat) : List Char :=
  [digitChar (n / 10 % 10), digitChar (n % 10)]

/-- Four-digit zero-padded decimal rendering (layout item `2006`),
for years up to 9999. -/
def pad4 (n : Nat) : List Char :=
  [digitChar (n / 1000 % 10), digitChar (n / 100 % 10),
   digitChar (n / 10 % 10), digitChar (n % 10)]

/-- `Time.Format("2006-01-02")` as a character list. -/
def formatDateChars (dt : Date) : List Char :=
  pad4 dt.year ++ '-' :: (pad2 dt.month ++ '-' :: pad2 dt.day)

/-- `Time.Format("2006-01-02")`. -/
def formatDate (dt : Date) : String :=
  String.mk (formatDateChars dt)

theorem charDigit?_lt (c : Char) (n : Nat) (h : charDigit? c = some n) :
    n < 10 := by
  unfold charDigit? at h
  repeat' split at h
  all_goals cases h
  all_goals subst_vars
  all_goals decide

theorem digitChar_charDigit? (c : Char) (n : Nat)
    (h : charDigit? c = some n) : digitChar n = c := by
  unfold charDigit? at h
  repeat' split at h
  all_goals cases h
  all_goals subst_vars
  all_goals decide

theorem formatDateChars_parseDateChars (l : List Char) (dt : Date)
    (h : parseDateChars l = some dt) : formatDateChars dt = l := by
  unfold parseDateChars at h
  split at h
  case _ y1 y2 y3 y4 h1 m1 m2 h2 d1 d2 =>
    split at h
    case _ a b c d e f g hh hy1 hy2 hy3 hy4 hm1 hm2 hd1 hd2 =>
      split at h
      case isTrue hyph =>
        split at h
        case isTrue hrange =>
          injection h with h
          subst h
          obtain ⟨hy1', hy2'⟩ := hyph
          subst hy1'
          subst hy2'
          have ha := charDigit?_lt _ _ hy1
          have hb := charDigit?_lt _ _ hy2
          have hc := charDigit?_lt _ _ hy3
          have hd := charDigit?_lt _ _ hy4
          have he := charDigit?_lt _ _ hm1
          have hf := charDigit?_lt _ _ hm2
          have hg := charDigit?_lt _ _ hd1
          have hh' := charDigit?_lt _ _ hd2
          simp only [formatDateChars, pad4, pad2]
          have e1 : (1000 * a + 100 * b + 10 * c + d) / 1000 % 10 = a := by omega
          have e2 : (1000 * a + 100 * b + 10 * c + d) / 100 % 10 = b := by omega
          have e3 : (1000 * a + 100 * b + 10 * c + d) / 10 % 10 = c := by omega
          have e4 : (1000 * a + 100 * b + 10 * c + d) % 10 = d := by omega
          have e5 : (10 * e + f) / 10 % 10 = e := by omega
          have e6 : (10 * e + f) % 10 = f := by omega
          have e7 : (10 * g + hh) / 10 % 10 = g := by omega
          have e8 : (10 * g + hh) % 10 = hh := by omega
          rw [e1, e2, e3, e4, e5, e6, e7, e8]
          rw [digitChar_charDigit? _ _ hy1, digitChar_charDigit? _ _ hy2,
              digitChar_charDigit? _ _ hy3, digitChar_charDigit? _ _ hy4,
              digitChar_charDigit? _ _ hm1, digitChar_charDigit? _ _ hm2,
              digitChar_charDigit? _ _ hd1, digitChar_charDigit? _ _ hd2]
          rfl
        case isFalse => cases h
      case isFalse => cases h
    case _ => cases h
  case _ => cases h

theorem formatDate_parseDate (s : String) (dt : Date)
    (h : parseDate s = some dt) : formatDate dt = s := by
  cases s with
  | mk l =>
    have := formatDateChars_parseDateChars l dt h
    simp only [formatDate, this]

/-! ## UUIDs (`github.com/google/uuid`, external collaborator) -/

/-- A 128-bit UUID value; `0` is `uuid.Nil`, the zero value of
`uuid.UUID`. -/
abbrev UUID := Nat

/-- Lower-case hexadecimal digit character for a value below sixteen. -/
def hexDigit (n : Nat) : Char :=
  if n < 10 then digitChar n
  else if n = 10 then 'a'
  else if n = 11 then 'b'
  else if n = 12 then 'c'
  else if n = 13 then 'd'
  else if n = 14 then 'e'
  else 'f'

/-- `uuid.UUID.String()`: canonical lower-case
`xxxxxxxx-xxxx-xxxx-xxxx-xxxxxxxxxxxx` rendering of the 128-bit value,
nibble `i` being bits `127-4i .. 124-4i`. -/
def uuidString (u : UUID) : String :=
  String.mk <|
    ((List.range 8).map fun i => hexDigit (u / 16 ^ (31 - i) % 16)) ++
    '-' :: ((List.range 4).map fun i => hexDigit (u / 16 ^ (23 - i) % 16)) ++
    '-' :: ((List.range 4).map fun i => hexDigit (u / 16 ^ (19 - i) % 16)) ++
    '-' :: ((List.range 4).map fun i => hexDigit (u / 16 ^ (15 - i) % 16)) ++
    '-' :: ((List.range 12).map fun i => hexDigit (u / 16 ^ (11 - i) % 16))

/-! ## Go errors and the gorm sentinel -/

/-- A Go `error` value, as compared by interface equality: a named
sentinel, a wrapping error (as built by `fmt.Errorf` with `%w`), or any
other error value.  Interface equality is structural equality here; in
particular a wrapping error is never equal to the sentinel it wraps. -/
inductive GoError where
  | sentinel (msg : String)
  | wrapped (msg : String) (inner : GoError)
  | other (msg : String)
deriving DecidableEq

/-- `gorm.ErrRecordNotFound`, the distinguished "no matching row"
sentinel of the store. -/
def gormErrRecordNotFound : GoError := .sentinel "record not found"

/-- Unwrap chain membership: whether `e` is `target` or wraps it at any
depth (what Go's `errors.Is` would find). -/
def GoError.contains : GoError → GoError → Bool
  | e, target =>
    if e = target then true
    else match e with
      | .wrapped _ inner => inner.contains target
      | _ => false

/-! ## Data shapes (src/unnamed/part_000) -/

/-- The `DTO` struct: transient output representation. -/
structure DTO where
  ID : String
  Title : String
  Author : String
  PublishedDate : String
  ImageURL : String
  Description : String
deriving DecidableEq

/-- The `Form` struct: transient validated input, with validate tags
`Title: required,max=255`, `Author: required,alphaspace,max=255`,
`PublishedDate: required,datetime=2006-01-02`, `ImageURL: url`,
`Description:` (no tag). -/
structure Form where
  Title : String
  Author : String
  PublishedDate : String
  ImageURL : String
  Description : String
deriving DecidableEq

/-- The `Book` struct: persisted entity.  `CreatedAt`/`UpdatedAt` model
Go `time.Time` timestamps abstractly as naturals with zero value `0`;
`DeletedAt` models `gorm.DeletedAt` (a nullable timestamp) with zero
value `none`. -/
structure Book where
  ID : UUID
  Title : String
  Author : String
  PublishedDate : Date
  ImageURL : String
  Description : String
  CreatedAt : Nat
  UpdatedAt : Nat
  DeletedAt : Option Nat
deriving DecidableEq

/-- The `Books` slice type. -/
abbrev Books := List Book

/-! ## Mapper (handler.go lines 30-60) -/

/-- `Form.ToModel` (handler.go:30-40): `pubDate, _ := time.Parse(...)`
discards the parse error, so an unparseable date yields Go's zero
`time.Time` (`zeroDate`); every struct field not listed in the composite
literal keeps its zero value. -/
def Form.ToModel (f : Form) : Book :=
  { ID := 0
    Title := f.Title
    Author := f.Author
    PublishedDate := (parseDate f.PublishedDate).getD zeroDate
    ImageURL := f.ImageURL
    Description := f.Description
    CreatedAt := 0
    UpdatedAt := 0
    DeletedAt := none }

/-- `Book.ToDto` (handler.go:42-51). -/
def Book.ToDto (b : Book) : DTO :=
  { ID := uuidString b.ID
    Title := b.Title
    Author := b.Author
    PublishedDate := formatDate b.PublishedDate
    ImageURL := b.ImageURL
    Description := b.Description }

/-- `Books.ToDto` (handler.go:53-60): the loop fills slot `i` of a slice
of the same length with `bs[i].ToDto()`, i.e. an order-preserving
element-wise map. -/
def Books.ToDto (bs : Books) : List DTO :=
  bs.map Book.ToDto

/-! ## Form validation

The validate tags live on `Form` in src/unnamed/part_000; the engine is
the external `go-playground/validator/v10` library: struct fields are
checked in declaration order, each field's tags left to right, recording
the first failing tag of each field and moving on to the next field, so
one violation is collected per violated field and every violated field is
reported.  The custom `alphaspace` rule is registered in the repository's
`util/validator` package, which is not under src/. -/

/-- Modelled from the spec: the custom `alphaspace` rule of the missing
`util/validator` package — the author field must be "alphabetic-and-spaces
only" (ASCII letters and spaces). -/
def alphaSpace (s : String) : Bool :=
  s.data.all fun c =>
    (65 ≤ c.toNat && c.toNat ≤ 90) || (97 ≤ c.toNat && c.toNat ≤ 122) ||
      c = ' '

/-- A scheme as required by go-playground's `url` rule via
`url.ParseRequestURI`: a letter followed by letters, digits, `+`, `-` or
`.`. -/
def schemeOk (l : List Char) : Bool :=
  match l with
  | [] => false
  | c :: rest =>
    ((65 ≤ c.toNat && c.toNat ≤ 90) || (97 ≤ c.toNat && c.toNat ≤ 122)) &&
      rest.all fun c =>
        (65 ≤ c.toNat && c.toNat ≤ 90) || (97 ≤ c.toNat && c.toNat ≤ 122) ||
          (48 ≤ c.toNat && c.toNat ≤ 57) || c = '+' || c = '-' || c = '.'

/-- go-playground's baked-in `url` rule (`isURL`): strip everything from
the first `#`, reject the empty remainder outright, then require an
absolute URI with a nonempty scheme (`url.ParseRequestURI` plus
`Scheme != ""`; the finer syntactic rejections of `net/url` after the
scheme are not modelled, no claim depends on them).  In particular an
empty string always fails: the rule has no `omitempty` companion on the
`ImageURL` tag. -/
def urlValid (s : String) : Bool :=
  match (s.data.takeWhile fun c => c ≠ '#').span fun c => c ≠ ':' with
  | (pre, ':' :: _) => schemeOk pre
  | _ => false

/-- A reported violation: offending struct field and failed rule. -/
structure FieldError where
  field : String
  tag : String
deriving DecidableEq

/-- Checks of the `Title` tags `required,max=255` (first failing tag
wins; go-playground's `required` fails exactly on the zero value `""`,
`max` on strings compares the rune count). -/
def checkTitle (f : Form) : List FieldError :=
  if f.Title = "" then [⟨"Title", "required"⟩]
  else if 255 < f.Title.length then [⟨"Title", "max"⟩]
  else []

/-- Checks of the `Author` tags `required,alphaspace,max=255`. -/
def checkAuthor (f : Form) : List FieldError :=
  if f.Author = "" then [⟨"Author", "required"⟩]
  else if ¬ alphaSpace f.Author then [⟨"Author", "alphaspace"⟩]
  else if 255 < f.Author.length then [⟨"Author", "max"⟩]
  else []

/-- Checks of the `PublishedDate` tags `required,datetime=2006-01-02`
(the `datetime` rule runs `time.Parse` with the given layout and fails
when it errors). -/
def checkPublishedDate (f : Form) : List FieldError :=
  if f.PublishedDate = "" then [⟨"PublishedDate", "required"⟩]
  else if (parseDate f.PublishedDate).isNone then
    [⟨"PublishedDate", "datetime"⟩]
  else []

/-- Check of the sole `ImageURL` tag `url`. -/
def checkImageURL (f : Form) : List FieldError :=
  if urlValid f.ImageURL then [] else [⟨"ImageURL", "url"⟩]

/-- `validator.Struct(form)` on a `Form`: the violations of all fields in
declaration order (`Description` has no tag); the result is empty exactly
when Go's call returns a nil error. -/
def validateForm (f : Form) : List FieldError :=
  checkTitle f ++ checkAuthor f ++ checkPublishedDate f ++ checkImageURL f

/-! ## HTTP responses

The helpers of `api/resource/common/err` and the
`util/validator.ToErrResponse` serializer are repository code not under
src/ and are modelled from the spec. -/

/-- The pre-marshalled error-code constants of the `err` package used by
this handler (opaque payloads, one per error kind). -/
inductive ErrCode where
  | RespDBDataAccessFailure
  | RespDBDataInsertFailure
  | RespDBDataUpdateFailure
  | RespDBDataRemoveFailure
  | RespJSONEncodeFailure
  | RespJSONDecodeFailure
  | RespInvalidURLParamID
deriving DecidableEq

/-- A response body: nothing written, bytes written directly by the
handler, one of the `err` package's opaque error-code payloads, or the
serialized violation list of `util/validator.ToErrResponse`. -/
inductive RespBody where
  | empty
  | raw (s : String)
  | err (c : ErrCode)
  | validation (items : List FieldError)
deriving DecidableEq

/-- An HTTP response: status code and body.  A Go handler that returns
without writing anything yields status 200 with an empty body. -/
structure Response where
  status : Nat
  body : RespBody
deriving DecidableEq

/-- Modelled from the spec: `err.ServerError` of the missing `err`
package writes HTTP 500 (server-side errors are "internal error" per the
spec) with the given pre-marshalled error-code body. -/
def serverError (c : ErrCode) : Response := ⟨500, .err c⟩

/-- Modelled from the spec: `err.BadRequest` of the missing `err` package
writes HTTP 400 with the given pre-marshalled error-code body. -/
def badRequest (c : ErrCode) : Response := ⟨400, .err c⟩

/-- Modelled from the spec: `err.ValidationErrors` of the missing `err`
package writes HTTP 422 (unprocessable-entity semantics) with the
serialized full violation set produced by
`util/validator.ToErrResponse`. -/
def validationErrors (items : List FieldError) : Response :=
  ⟨422, .validation items⟩

/-! ## Response JSON encoding (`encoding/json`, external collaborator) -/

/-- `encoding/json` escaping of one character inside a string literal,
with the encoder's default HTML escaping of `<`, `>`, `&` and the
U+2028/U+2029 special cases. -/
def jsonEscapeChar (c : Char) : List Char :=
  if c = '"' then ['\\', '"']
  else if c = '\\' then ['\\', '\\']
  else if c = '\n' then ['\\', 'n']
  else if c = '\r' then ['\\', 'r']
  else if c = '\t' then ['\\', 't']
  else if c = '<' ∨ c = '>' ∨ c = '&' ∨ c.toNat < 32 then
    '\\' :: 'u' :: '0' :: '0' :: hexDigit (c.toNat / 16 % 16) ::
      [hexDigit (c.toNat % 16)]
  else if c.toNat = 8232 ∨ c.toNat = 8233 then
    '\\' :: 'u' :: '2' :: '0' :: '2' :: [hexDigit (c.toNat % 16)]
  else [c]

/-- A JSON string literal for `s`. -/
def jsonQuote (s : String) : String :=
  String.mk ('"' :: s.data.flatMap jsonEscapeChar ++ ['"'])

/-- `json.Marshal` of one `DTO`, fields in struct order under their
`json:` tag names (note the `Author` tag's upper-case spelling). -/
def goEncodeDto (d : DTO) : String :=
  "\x7b\"id\":" ++ jsonQuote d.ID ++
  ",\"title\":" ++ jsonQuote d.Title ++
  ",\"Author\":" ++ jsonQuote d.Author ++
  ",\"published_date\":" ++ jsonQuote d.PublishedDate ++
  ",\"image_url\":" ++ jsonQuote d.ImageURL ++
  ",\"description\":" ++ jsonQuote d.Description ++ "\x7d"

/-- `json.NewEncoder(w).Encode` of a `[]*DTO` slice: the JSON array plus
the encoder's trailing newline. -/
def goEncodeDtoList (ds : List DTO) : String :=
  "[" ++ String.intercalate "," (ds.map goEncodeDto) ++ "]" ++ "\n"

/-- `json.NewEncoder(w).Encode` of one `*DTO`: the JSON object plus the
encoder's trailing newline. -/
def goEncodeDtoObj (d : DTO) : String :=
  goEncodeDto d ++ "\n"

/-! ## Handlers (handler.go lines 72-253)

Each handler takes: the outcome of `uuid.Parse` on the `id` path
parameter where the route has one (`none` = parse error), the outcome of
`json.NewDecoder(r.Body).Decode` where the route has a body (`none` =
decode error), and the repository call outcome.  Repository methods
return Go's `(value, error)` pairs: `(rows, err)` for Create, Update and
Delete, `(books, err)` for List, `(book, err)` for Read.  Handlers return
the HTTP response together with the trace of repository calls performed.
Serialization of outgoing bodies (`json.Marshal` of the violation
response, `Encoder.Encode` of DTOs) cannot fail on these data, so the
corresponding dead error branches of the source reduce away. -/

/-- A repository call, as recorded in a handler's trace. -/
inductive RepoCall where
  | listCall
  | createCall (b : Book)
  | readCall (id : UUID)
  | updateCall (b : Book)
  | deleteCall (id : UUID)
deriving DecidableEq

/-- `API.List` (handler.go:72-88): storage failure reports a data-access
server error; an empty result short-circuits with the literal two-byte
body `[]` via `fmt.Fprint`; otherwise the DTO list is JSON-encoded. -/
def APIList (repoList : List Book × Option GoError) :
    Response × List RepoCall :=
  match repoList with
  | (_, some _) => (serverError .RespDBDataAccessFailure, [.listCall])
  | (books, none) =>
    if books.length = 0 then (⟨200, .raw "[]"⟩, [.listCall])
    else (⟨200, .raw (goEncodeDtoList (Books.ToDto books))⟩, [.listCall])

/-- `API.Create` (handler.go:103-131): decode failure reports (via
`e.ServerError`) the JSON-decode error code; a nonempty violation set is
serialized in full and reported via `e.ValidationErrors`; otherwise the
form is mapped to a model, a fresh identifier (`uuid.New()`, passed in as
`newId`) is assigned, and the repository row count is discarded — any
error-free `Create` yields 201 with no body. -/
def APICreate (decoded : Option Form) (newId : UUID)
    (repoCreate : Book → Nat × Option GoError) :
    Response × List RepoCall :=
  match decoded with
  | none => (serverError .RespJSONDecodeFailure, [])
  | some form =>
    match validateForm form with
    | [] =>
      match repoCreate { form.ToModel with ID := newId } with
      | (_, some _) =>
        (serverError .RespDBDataInsertFailure,
         [.createCall { form.ToModel with ID := newId }])
      | (_, none) =>
        (⟨201, .empty⟩, [.createCall { form.ToModel with ID := newId }])
    | errs => (validationErrors errs, [])

/-- `API.Read` (handler.go:146-169): a bad path identifier is a 400; a
repository error equal (by direct interface comparison, no unwrapping) to
`gorm.ErrRecordNotFound` is an empty 404; any other repository error is a
data-access server error; on success the DTO is JSON-encoded. -/
def APIRead (idParsed : Option UUID)
    (repoRead : UUID → Book × Option GoError) :
    Response × List RepoCall :=
  match idParsed with
  | none => (badRequest .RespInvalidURLParamID, [])
  | some id =>
    match repoRead id with
    | (_, some e) =>
      if e = gormErrRecordNotFound then (⟨404, .empty⟩, [.readCall id])
      else (serverError .RespDBDataAccessFailure, [.readCall id])
    | (book, none) =>
      (⟨200, .raw (goEncodeDtoObj book.ToDto)⟩, [.readCall id])

/-- `API.Update` (handler.go:186-222): bad identifier → 400; decode
failure → the JSON-decode error code via `e.ServerError`; violations →
422 with the full set; otherwise the mapped model's `ID` is overwritten
with the path identifier and passed to `Repository.Update`: a storage
error is a 500, zero rows affected an empty 404, nonzero rows an empty
200 (the handler returns without writing). -/
def APIUpdate (idParsed : Option UUID) (decoded : Option Form)
    (repoUpdate : Book → Nat × Option GoError) :
    Response × List RepoCall :=
  match idParsed with
  | none => (badRequest .RespInvalidURLParamID, [])
  | some id =>
    match decoded with
    | none => (serverError .RespJSONDecodeFailure, [])
    | some form =>
      match validateForm form with
      | [] =>
        match repoUpdate { form.ToModel with ID := id } with
        | (_, some _) =>
          (serverError .RespDBDataUpdateFailure,
           [.updateCall { form.ToModel with ID := id }])
        | (rows, none) =>
          if rows = 0 then
            (⟨404, .empty⟩, [.updateCall { form.ToModel with ID := id }])
          else (⟨200, .empty⟩, [.updateCall { form.ToModel with ID := id }])
      | errs => (validationErrors errs, [])

/-- `API.Delete` (handler.go:237-253): bad identifier → 400; a storage
error is reported via `e.BadRequest` (the source's inconsistency with
Create/Update, preserved); zero rows affected → empty 404; nonzero →
empty 200. -/
def APIDelete (idParsed : Option UUID)
    (repoDelete : UUID → Nat × Option GoError) :
    Response × List RepoCall :=
  match idParsed with
  | none => (badRequest .RespInvalidURLParamID, [])
  | some id =>
    match repoDelete id with
    | (_, some _) => (badRequest .RespDBDataRemoveFailure, [.deleteCall id])
    | (rows, none) =>
      if rows = 0 then (⟨404, .empty⟩, [.deleteCall id])
      else (⟨200, .empty⟩, [.deleteCall id])

/-! ## Helper lemmas -/

theorem checkTitle_field (f : Form) (er : FieldError)
    (h : er ∈ checkTitle f) : er.field = "Title" := by
  unfold checkTitle at h
  split at h <;> (try split at h) <;> simp_all

theorem checkAuthor_field (f : Form) (er : FieldError)
    (h : er ∈ checkAuthor f) : er.field = "Author" := by
  unfold checkAuthor at h
  split at h <;> (try split at h) <;> (try split at h) <;> simp_all

theorem checkPublishedDate_field (f : Form) (er : FieldError)
    (h : er ∈ checkPublishedDate f) : er.field = "PublishedDate" := by
  unfold checkPublishedDate at h
  split at h <;> (try split at h) <;> simp_all

theorem digit_not_alphaspace (c : Char) (n : Nat)
    (h : charDigit? c = some n) :
    ((65 ≤ c.toNat && c.toNat ≤ 90) || (97 ≤ c.toNat && c.toNat ≤ 122) ||
      c = ' ') = false := by
  unfold charDigit? at h
  repeat' split at h
  all_goals cases h
  all_goals subst_vars
  all_goals decide

/-! ## Claims -/

/-- C1: the spec's interface table, its error taxonomy and the handler's
own swagger annotation document a JSON-decode failure on Create as a 400
client error; the source instead calls `e.ServerError` (HTTP 500) with
the decode-failure code in both `Create` (handler.go:106) and `Update`
(handler.go:195).  This theorem evaluates both handlers at a
decode-failure input: the response is the 500 server error carrying only
the generic decode-failure code, not a 400. -/
theorem c1_decode_failure_is_server_error :
    (APICreate none 0 (fun _ => (1, none))).fst =
      serverError .RespJSONDecodeFailure ∧
    (APIUpdate (some 0) none (fun _ => (1, none))).fst =
      serverError .RespJSONDecodeFailure ∧
    (serverError .RespJSONDecodeFailure).status = 500 ∧
    (serverError .RespJSONDecodeFailure).status ≠ 400 := by
  refine ⟨rfl, rfl, rfl, by decide⟩

/-- C2 counterexample: a Form with an absent/empty image URL and every
other field valid still fails validation, with a `url` violation on the
`ImageURL` field — the claim that validation succeeds when the field is
empty is false (the tag is `url` with no `omitempty`). -/
theorem c2_counterexample :
    validateForm
      { Title := "The Go Programming Language", Author := "Alan Donovan",
        PublishedDate := "2015-10-26", ImageURL := "", Description := "" } =
      [{ field := "ImageURL", tag := "url" }] := by
  decide

/-- C2 (amended): validation of the image URL field is unconditional —
it fails with the `url` rule whenever the field is absent/empty (as well
as when it is present and not a well-formed URL), and only a well-formed
URL avoids a violation on that field; the field is effectively
required. -/
theorem c2_amended (f : Form) :
    (f.ImageURL = "" →
      ({ field := "ImageURL", tag := "url" } : FieldError) ∈ validateForm f) ∧
    (urlValid f.ImageURL = false →
      ({ field := "ImageURL", tag := "url" } : FieldError) ∈ validateForm f) ∧
    (urlValid f.ImageURL = true →
      ∀ er ∈ validateForm f, er.field ≠ "ImageURL") := by
  have hmem : urlValid f.ImageURL = false →
      ({ field := "ImageURL", tag := "url" } : FieldError) ∈ validateForm f := by
    intro hfalse
    have hcheck : checkImageURL f = [{ field := "ImageURL", tag := "url" }] := by
      unfold checkImageURL
      rw [hfalse]
      simp
    unfold validateForm
    rw [hcheck]
    simp
  refine ⟨?_, hmem, ?_⟩
  · intro hempty
    apply hmem
    rw [hempty]
    decide
  · intro hurl er hmem hfield
    unfold validateForm at hmem
    have hcheck : checkImageURL f = [] := by
      unfold checkImageURL
      rw [hurl]
      simp
    rw [hcheck] at hmem
    simp only [List.append_nil, List.mem_append] at hmem
    rcases hmem with (h | h) | h
    · exact absurd (checkTitle_field f er h) (by rw [hfield]; decide)
    · exact absurd (checkAuthor_field f er h) (by rw [hfield]; decide)
    · exact absurd (checkPublishedDate_field f er h) (by rw [hfield]; decide)

/-- C2 witness: the amended claim at concrete inputs — an empty image
URL produces the `url` violation, a present but malformed (schemeless)
URL also produces it, and a well-formed URL produces no `ImageURL`
violation. -/
theorem c2_amended_witness :
    ({ field := "ImageURL", tag := "url" } : FieldError) ∈
      validateForm
        { Title := "A", Author := "B", PublishedDate := "2020-01-02",
          ImageURL := "", Description := "" } ∧
    ({ field := "ImageURL", tag := "url" } : FieldError) ∈
      validateForm
        { Title := "A", Author := "B", PublishedDate := "2020-01-02",
          ImageURL := "example.com/x.png", Description := "" } ∧
    ∀ er ∈ validateForm
        { Title := "A", Author := "B", PublishedDate := "2020-01-02",
          ImageURL := "https://example.com/x.png", Description := "" },
      er.field ≠ "ImageURL" :=
  ⟨(c2_amended _).1 rfl, (c2_amended _).2.1 (by decide),
   (c2_amended _).2.2 (by decide)⟩

/-- C3: `ModelToDto ∘ FormToModel` reproduces title, author, image URL
and description verbatim for every Form, and reproduces the
published-date string whenever it is a valid `YYYY-MM-DD` calendar date
(i.e. whenever `time.Parse` succeeds on it). -/
theorem c3_roundtrip (f : Form) :
    f.ToModel.ToDto.Title = f.Title ∧
    f.ToModel.ToDto.Author = f.Author ∧
    f.ToModel.ToDto.ImageURL = f.ImageURL ∧
    f.ToModel.ToDto.Description = f.Description ∧
    ∀ dt : Date, parseDate f.PublishedDate = some dt →
      f.ToModel.ToDto.PublishedDate = f.PublishedDate := by
  refine ⟨rfl, rfl, rfl, rfl, ?_⟩
  intro dt h
  show formatDate ((parseDate f.PublishedDate).getD zeroDate) =
    f.PublishedDate
  rw [h, Option.getD_some]
  exact formatDate_parseDate _ _ h

/-- C3 witness: the round trip at a concrete Form with a leap-adjacent
calendar date. -/
theorem c3_roundtrip_witness :
    ({ Title := "T", Author := "A", PublishedDate := "2019-02-28",
       ImageURL := "https://example.com/i.png", Description := "" } :
        Form).ToModel.ToDto.PublishedDate = "2019-02-28" :=
  (c3_roundtrip _).2.2.2.2 { year := 2019, month := 2, day := 28 }
    (by decide)

/-- C4: `Form.ToModel` is total — an unparseable published date becomes
the zero date (Go's zero `time.Time`) rather than an error; title,
author, image URL and description are copied verbatim; the identifier
and every timestamp field keep their zero values. -/
theorem c4_toModel_total (f : Form) :
    (parseDate f.PublishedDate = none →
      f.ToModel.PublishedDate = zeroDate) ∧
    f.ToModel.Title = f.Title ∧
    f.ToModel.Author = f.Author ∧
    f.ToModel.ImageURL = f.ImageURL ∧
    f.ToModel.Description = f.Description ∧
    f.ToModel.ID = 0 ∧
    f.ToModel.CreatedAt = 0 ∧
    f.ToModel.UpdatedAt = 0 ∧
    f.ToModel.DeletedAt = none := by
  refine ⟨?_, rfl, rfl, rfl, rfl, rfl, rfl, rfl, rfl⟩
  intro h
  show (parseDate f.PublishedDate).getD zeroDate = zeroDate
  rw [h, Option.getD_none]

/-- C4 witness: a ten-character non-date input falls back to the zero
date. -/
theorem c4_toModel_total_witness :
    ({ Title := "T", Author := "A", PublishedDate := "not-a-date",
       ImageURL := "", Description := "" } : Form).ToModel.PublishedDate =
      zeroDate :=
  (c4_toModel_total _).1 (by decide)


/-- C5: when `Repository.List` succeeds with zero records the handler
writes exactly the two-byte body `[]` — which differs from what the
generic JSON encoder would emit for the empty DTO list (the encoder
appends a newline), so the encoder is not invoked — and when it succeeds
with records the body is the JSON encoding of the order-preserving
element-wise DTO mapping of the list. -/
theorem c5_list_empty_literal :
    (APIList ([], none)).fst = ⟨200, .raw "[]"⟩ ∧
    "[]".length = 2 ∧
    RespBody.raw "[]" ≠ .raw (goEncodeDtoList (Books.ToDto [])) ∧
    ∀ bs : Books, bs ≠ [] →
      (APIList (bs, none)).fst =
        ⟨200, .raw (goEncodeDtoList (bs.map Book.ToDto))⟩ := by
  refine ⟨rfl, rfl, by decide, ?_⟩
  intro bs hbs
  cases bs with
  | nil => exact absurd rfl hbs
  | cons b t => rfl

/-- C5 witness: the nonempty case at a one-element store. -/
theorem c5_list_witness :
    (APIList
        ([{ ID := 0, Title := "T", Author := "A",
            PublishedDate := { year := 2020, month := 1, day := 2 },
            ImageURL := "", Description := "", CreatedAt := 0,
            UpdatedAt := 0, DeletedAt := none }], none)).fst =
      ⟨200, .raw (goEncodeDtoList
        ([{ ID := 0, Title := "T", Author := "A",
            PublishedDate := { year := 2020, month := 1, day := 2 },
            ImageURL := "", Description := "", CreatedAt := 0,
            UpdatedAt := 0, DeletedAt := none }].map Book.ToDto))⟩ :=
  c5_list_empty_literal.2.2.2 _ (by simp)

/-- C6: a Form violating several field rules at once (here: title
missing, author containing digits) is answered with the
validation-failed response (HTTP 422, a status distinct from the 400 and
500 error classes) whose body lists a violation for every violated
field — both the `Title` and the `Author` violations are present, not
just the first. -/
theorem c6_all_violations (f : Form) (newId : UUID)
    (repo : Book → Nat × Option GoError)
    (h1 : f.Title = "")
    (h2 : ∃ c ∈ f.Author.data, (charDigit? c).isSome = true) :
    ∃ errs, (APICreate (some f) newId repo).fst = validationErrors errs ∧
      ({ field := "Title", tag := "required" } : FieldError) ∈ errs ∧
      ({ field := "Author", tag := "alphaspace" } : FieldError) ∈ errs ∧
      (validationErrors errs).status = 422 ∧
      (validationErrors errs).status ≠ 400 ∧
      (validationErrors errs).status ≠ 500 := by
  obtain ⟨c, hc, hdig⟩ := h2
  rw [Option.isSome_iff_exists] at hdig
  obtain ⟨n, hdig⟩ := hdig
  have hAuthorNe : f.Author ≠ "" := by
    intro h0
    rw [h0] at hc
    simp at hc
  have hA : alphaSpace f.Author = false := by
    rcases halpha : alphaSpace f.Author with _ | _
    · rfl
    · exfalso
      unfold alphaSpace at halpha
      rw [List.all_eq_true] at halpha
      have := halpha c hc
      rw [digit_not_alphaspace c n hdig] at this
      cases this
  have hT : checkTitle f = [{ field := "Title", tag := "required" }] := by
    unfold checkTitle
    rw [if_pos h1]
  have hAu : checkAuthor f = [{ field := "Author", tag := "alphaspace" }] := by
    unfold checkAuthor
    rw [if_neg hAuthorNe, if_pos]
    rw [hA]
    simp
  have hval : validateForm f =
      { field := "Title", tag := "required" } ::
        { field := "Author", tag := "alphaspace" } ::
          (checkPublishedDate f ++ checkImageURL f) := by
    unfold validateForm
    rw [hT, hAu]
    rfl
  refine ⟨{ field := "Title", tag := "required" } ::
      { field := "Author", tag := "alphaspace" } ::
        (checkPublishedDate f ++ checkImageURL f), ?_, ?_, ?_, ?_, ?_, ?_⟩
  · simp only [APICreate]
    rw [hval]
  · simp
  · simp
  · rfl
  · show (422 : Nat) ≠ 400
    decide
  · show (422 : Nat) ≠ 500
    decide

/-- C6 witness: a Form with empty title and a digit-bearing author gets
a 422 listing both the title and the author violations. -/
theorem c6_all_violations_witness :
    ∃ errs, (APICreate
        (some { Title := "", Author := "J4ne",
                PublishedDate := "2020-01-02",
                ImageURL := "https://example.com/x.png",
                Description := "" }) 0 (fun _ => (1, none))).fst =
      validationErrors errs ∧
      ({ field := "Title", tag := "required" } : FieldError) ∈ errs ∧
      ({ field := "Author", tag := "alphaspace" } : FieldError) ∈ errs ∧
      (validationErrors errs).status = 422 ∧
      (validationErrors errs).status ≠ 400 ∧
      (validationErrors errs).status ≠ 500 :=
  c6_all_violations _ 0 _ rfl (by decide)

/-- C7: whenever the Update handler reaches `Repository.Update`, the
model it passes carries the UUID parsed from the path as its identifier,
for every request body whatsoever — the body never supplies or
influences identity. -/
theorem c7_update_id_from_path (id : UUID) (decoded : Option Form)
    (repo : Book → Nat × Option GoError) (b : Book)
    (h : RepoCall.updateCall b ∈ (APIUpdate (some id) decoded repo).snd) :
    b.ID = id := by
  cases decoded with
  | none =>
    simp only [APIUpdate] at h
    simp at h
  | some form =>
    simp only [APIUpdate] at h
    split at h
    · split at h
      · simp only [List.mem_singleton] at h
        injection h with h
        subst h
        rfl
      · split at h <;>
          (simp only [List.mem_singleton] at h
           injection h with h
           subst h
           rfl)
    · simp at h

/-- C7 witness: a concrete valid Update call passes a model whose
identifier is the path UUID 7. -/
theorem c7_update_id_witness :
    RepoCall.updateCall
        { ({ Title := "T", Author := "A", PublishedDate := "2020-01-02",
             ImageURL := "https://example.com/x.png", Description := "" } :
              Form).ToModel with ID := 7 } ∈
      (APIUpdate (some 7)
        (some { Title := "T", Author := "A", PublishedDate := "2020-01-02",
                ImageURL := "https://example.com/x.png", Description := "" })
        (fun _ => (1, none))).snd ∧
    ({ ({ Title := "T", Author := "A", PublishedDate := "2020-01-02",
          ImageURL := "https://example.com/x.png", Description := "" } :
           Form).ToModel with ID := 7 } : Book).ID = 7 :=
  ⟨by decide,
   c7_update_id_from_path 7
     (some { Title := "T", Author := "A", PublishedDate := "2020-01-02",
             ImageURL := "https://example.com/x.png", Description := "" })
     (fun _ => (1, none)) _ (by decide)⟩

/-- C8: for both Update and Delete, when the repository call succeeds
(no error) and reports zero rows affected the handler responds 404 with
no body, and when it reports a nonzero row count the handler responds
200 with no body. -/
theorem c8_rows_affected (id : UUID) (f : Form) (n : Nat)
    (hval : validateForm f = []) :
    ((APIUpdate (some id) (some f) (fun _ => (n, none))).fst =
      if n = 0 then ⟨404, .empty⟩ else ⟨200, .empty⟩) ∧
    ((APIDelete (some id) (fun _ => (n, none))).fst =
      if n = 0 then ⟨404, .empty⟩ else ⟨200, .empty⟩) := by
  constructor
  · simp only [APIUpdate]
    rw [hval]
    by_cases hn : n = 0 <;> simp [hn]
  · by_cases hn : n = 0 <;> simp [APIDelete, hn]

/-- C8 witness: zero rows yields 404 on Update, one row yields 200 on
Delete, at concrete inputs. -/
theorem c8_rows_affected_witness :
    (APIUpdate (some 0)
        (some { Title := "T", Author := "A", PublishedDate := "2020-01-02",
                ImageURL := "https://example.com/x.png", Description := "" })
        (fun _ => (0, none))).fst = ⟨404, .empty⟩ ∧
    (APIDelete (some 0) (fun _ => (1, none))).fst = ⟨200, .empty⟩ := by
  constructor
  · have h := (c8_rows_affected 0
      { Title := "T", Author := "A", PublishedDate := "2020-01-02",
        ImageURL := "https://example.com/x.png", Description := "" }
      0 (by decide)).1
    simpa using h
  · have h := (c8_rows_affected 0
      { Title := "T", Author := "A", PublishedDate := "2020-01-02",
        ImageURL := "https://example.com/x.png", Description := "" }
      1 (by decide)).2
    simpa using h

/-- C9: whenever `Repository.Create` returns no error, the Create
handler responds 201 with an empty body for every rows-affected count —
including zero rows inserted. -/
theorem c9_create_ignores_rows (f : Form) (newId : UUID) (n : Nat)
    (hval : validateForm f = []) :
    (APICreate (some f) newId (fun _ => (n, none))).fst = ⟨201, .empty⟩ := by
  simp only [APICreate]
  rw [hval]

/-- C9 witness: a successful repository call reporting zero rows
inserted still yields the created status. -/
theorem c9_create_ignores_rows_witness :
    (APICreate
        (some { Title := "T", Author := "A", PublishedDate := "2020-01-02",
                ImageURL := "https://example.com/x.png", Description := "" })
        3 (fun _ => (0, none))).fst = ⟨201, .empty⟩ :=
  c9_create_ignores_rows _ 3 0 (by decide)

/-- C10: the Read handler responds 404 exactly when the repository error
is the `gorm.ErrRecordNotFound` sentinel itself, compared by direct
equality; any other error — in particular an error that wraps the
sentinel (so its unwrap chain contains it) — produces the server-side
data-access failure response. -/
theorem c10_read_notfound_sentinel (id : UUID) (b : Book) (e : GoError) :
    ((APIRead (some id) (fun _ => (b, some e))).fst.status = 404 ↔
      e = gormErrRecordNotFound) ∧
    (e ≠ gormErrRecordNotFound →
      (APIRead (some id) (fun _ => (b, some e))).fst =
        serverError .RespDBDataAccessFailure) ∧
    ∀ m : String,
      (GoError.wrapped m gormErrRecordNotFound).contains
          gormErrRecordNotFound = true ∧
      (APIRead (some id)
          (fun _ => (b, some (.wrapped m gormErrRecordNotFound)))).fst =
        serverError .RespDBDataAccessFailure := by
  refine ⟨?_, ?_, ?_⟩
  · by_cases he : e = gormErrRecordNotFound <;>
      simp [APIRead, he, serverError]
  · intro he
    simp [APIRead, he]
  · intro m
    constructor
    · unfold GoError.contains
      rw [if_neg (by simp [gormErrRecordNotFound])]
      unfold GoError.contains
      rw [if_pos rfl]
    · simp [APIRead, gormErrRecordNotFound]

/-- C10 witness: a non-sentinel repository error at concrete inputs is
answered with the data-access server error. -/
theorem c10_read_notfound_witness :
    (APIRead (some 0) (fun _ =>
        ({ ID := 0, Title := "", Author := "", PublishedDate := zeroDate,
           ImageURL := "", Description := "", CreatedAt := 0,
           UpdatedAt := 0, DeletedAt := none },
         some (GoError.other "disk failure")))).fst =
      serverError .RespDBDataAccessFailure :=
  (c10_read_notfound_sentinel 0 _ (GoError.other "disk failure")).2.1
    (by decide)
